import Mathlib

/-!
Verification of the durable record store in
`src/backend/utils/fileOperations.js` (canvas_notes).

The store is shallowly embedded: the filesystem is an association list from
path names to file entries (content string plus modification time), and each
asynchronous `fs` primitive is a state-passing function that ticks a logical
clock, consumes one slot of an I/O fault oracle, and either succeeds or
returns a JavaScript-style error value.  The store lives in a single flat
directory, so `path.dirname`/`path.basename`/`path.join` collapse to the
identity on names.  External Node libraries (crypto SHA-256, JSON
stringify/parse, the JSON codec of the lock record) are modelled as
parameters of an `Env` structure; every property of them that a theorem
needs is stated as an explicit pointwise hypothesis.
-/

set_option autoImplicit false

deriving instance DecidableEq for Except

namespace CanvasStore

/-- A JavaScript `Error`: a message plus an optional `code` such as
`ENOENT` or `EEXIST`. -/
structure JsError where
  message : String
  code : Option String
deriving Repr, DecidableEq

/-- One on-disk file: its content bytes (as a string; the store is UTF-8
throughout) and its modification time. -/
structure FileEntry where
  content : String
  mtime : Nat
deriving Repr, DecidableEq

/-- The flat directory holding the store: an association list from file
name to entry, in creation order (as `readdir` would list it). -/
abbrev FS := List (String × FileEntry)

/-- Look a file up by name. -/
def FS.lookup : FS → String → Option FileEntry
  | [], _ => none
  | (q, e) :: rest, p => if q = p then some e else FS.lookup rest p

/-- Create or replace a file, keeping the directory order of an existing
name and appending a fresh name at the end. -/
def FS.set : FS → String → FileEntry → FS
  | [], p, e => [(p, e)]
  | (q, e0) :: rest, p, e =>
    if q = p then (p, e) :: rest else (q, e0) :: FS.set rest p e

/-- Delete a file by name. -/
def FS.remove : FS → String → FS
  | [], _ => []
  | (q, e0) :: rest, p =>
    if q = p then FS.remove rest p else (q, e0) :: FS.remove rest p

/-- Names in directory order, as `fs.readdir` returns them. -/
def FS.names (fs : FS) : List String := fs.map Prod.fst

/-- The lock record `{ pid, timestamp, hostname }` that `createLock`
serializes into the lock file. -/
structure LockData where
  pid : Nat
  timestamp : Nat
  hostname : String
deriving Repr, DecidableEq

/-- Result of `verifyChecksum`: the `{ valid, reason }` object. -/
structure VerifyResult where
  valid : Bool
  reason : String
deriving Repr, DecidableEq

/-- The system state threaded through every operation: the directory, the
current clock (`Date.now()` and `mtime` source) and the index of the next
I/O operation in the fault schedule. -/
structure Sys where
  files : FS
  now : Nat
  fidx : Nat
deriving Repr, DecidableEq

/-- The ambient environment: the collection element type `Val` (opaque
JSON-serializable values other than strings; string data is kept apart
because `atomicWrite` treats data of JS string type specially), the
external library functions, the I/O fault oracle, and process identity.
`stringify v` models `JSON.stringify(v, null, 2)`; `parse` models
`JSON.parse` (with `none` for a thrown `SyntaxError`), returning either a
string value or a `Val`; `digest` models the SHA-256 hex digest of
`generateChecksum`; `encodeLock`/`decodeLock` model JSON on the lock
record; `flt n = true` makes the `n`-th asynchronous I/O primitive fail
with an `EIO` error; `dev` is the development-mode flag read from
the `NODE_ENV` environment variable. -/
structure Env (Val : Type) where
  stringify : Val → String
  parse : String → Option (String ⊕ Val)
  digest : String → String
  encodeLock : LockData → String
  decodeLock : String → Option LockData
  flt : Nat → Bool
  dev : Bool
  pid : Nat
  host : String

variable {Val : Type}

/-- Advance the clock and the fault index across one asynchronous I/O
primitive. -/
def tick (s : Sys) : Sys := { s with now := s.now + 1, fidx := s.fidx + 1 }

/-- Synchronous `fsSync.existsSync`. -/
def existsSync (p : String) (s : Sys) : Bool := (FS.lookup s.files p).isSome

/-- Model of `fs.promises.readFile` in text mode. -/
def fsReadFile (E : Env Val) (p : String) (s : Sys) :
    Except JsError String × Sys :=
  let f := E.flt s.fidx
  let s := tick s
  if f then
    (.error ⟨"EIO: i/o error, read " ++ p, some "EIO"⟩, s)
  else
    match FS.lookup s.files p with
    | some e => (.ok e.content, s)
    | none =>
      (.error ⟨"ENOENT: no such file or directory, open " ++ p,
        some "ENOENT"⟩, s)

/-- Model of `fs.promises.writeFile`; `excl` is the `wx` exclusive-create
flag. -/
def fsWriteFile (E : Env Val) (p c : String) (excl : Bool) (s : Sys) :
    Except JsError Unit × Sys :=
  let f := E.flt s.fidx
  let s := tick s
  if f then
    (.error ⟨"EIO: i/o error, write " ++ p, some "EIO"⟩, s)
  else if excl && (FS.lookup s.files p).isSome then
    (.error ⟨"EEXIST: file already exists, open " ++ p, some "EEXIST"⟩, s)
  else
    (.ok (), { s with files := FS.set s.files p ⟨c, s.now⟩ })

/-- Model of `fs.promises.rename`; the moved file keeps its mtime. -/
def fsRename (E : Env Val) (src dst : String) (s : Sys) :
    Except JsError Unit × Sys :=
  let f := E.flt s.fidx
  let s := tick s
  if f then
    (.error ⟨"EIO: i/o error, rename " ++ src, some "EIO"⟩, s)
  else
    match FS.lookup s.files src with
    | some e =>
      (.ok (), { s with files := FS.set (FS.remove s.files src) dst e })
    | none =>
      (.error ⟨"ENOENT: no such file or directory, rename " ++ src,
        some "ENOENT"⟩, s)

/-- Model of `fs.promises.copyFile`; the copy gets a fresh mtime. -/
def fsCopyFile (E : Env Val) (src dst : String) (s : Sys) :
    Except JsError Unit × Sys :=
  let f := E.flt s.fidx
  let s := tick s
  if f then
    (.error ⟨"EIO: i/o error, copy " ++ src, some "EIO"⟩, s)
  else
    match FS.lookup s.files src with
    | some e =>
      (.ok (), { s with files := FS.set s.files dst ⟨e.content, s.now⟩ })
    | none =>
      (.error ⟨"ENOENT: no such file or directory, copy " ++ src,
        some "ENOENT"⟩, s)

/-- Model of `fs.promises.unlink`. -/
def fsUnlink (E : Env Val) (p : String) (s : Sys) :
    Except JsError Unit × Sys :=
  let f := E.flt s.fidx
  let s := tick s
  if f then
    (.error ⟨"EIO: i/o error, unlink " ++ p, some "EIO"⟩, s)
  else
    match FS.lookup s.files p with
    | some _ => (.ok (), { s with files := FS.remove s.files p })
    | none =>
      (.error ⟨"ENOENT: no such file or directory, unlink " ++ p,
        some "ENOENT"⟩, s)

/-- Model of `fs.promises.readdir` on the store directory. -/
def fsReaddir (E : Env Val) (s : Sys) : Except JsError (List String) × Sys :=
  let f := E.flt s.fidx
  let s := tick s
  if f then
    (.error ⟨"EIO: i/o error, scandir", some "EIO"⟩, s)
  else
    (.ok (FS.names s.files), s)

/-- Model of the retry backoff `sleep(ms)`: only the clock advances. -/
def sleep (ms : Nat) (s : Sys) : Sys := { s with now := s.now + ms }

/-- Model of JavaScript `String.prototype.startsWith`, stated on the
character data so that it evaluates by kernel reduction. -/
def strStartsWith (s pre : String) : Bool := pre.data.isPrefixOf s.data

/-- Model of JavaScript `String.prototype.trim` (strip leading and
trailing whitespace), stated on the character data so that it evaluates
by kernel reduction. -/
def strTrim (s : String) : String :=
  ⟨((s.data.dropWhile Char.isWhitespace).reverse.dropWhile
    Char.isWhitespace).reverse⟩

/-- FILE_CONFIG.BACKUP_COUNT. -/
def BACKUP_COUNT : Nat := 5

/-- FILE_CONFIG.LOCK_TIMEOUT: 2000 in development, 10000 otherwise. -/
def LOCK_TIMEOUT (dev : Bool) : Nat := if dev then 2000 else 10000

/-- FILE_CONFIG.MAX_RETRIES. -/
def MAX_RETRIES : Nat := 3

/-- FILE_CONFIG.RETRY_DELAY (base backoff in ms). -/
def RETRY_DELAY : Nat := 200

/-- Model of `verifyChecksum(filePath)`.  Both reads of the
`Promise.all` pair run (and consume fault slots) even when the first one
fails; a failed read of the checksum sidecar is turned into `null` by its
`.catch`, a failed read of the data file makes the surrounding `catch`
report the error message as the reason. -/
def verifyChecksum (E : Env Val) (filePath : String) (s : Sys) :
    VerifyResult × Sys :=
  let checksumPath := filePath ++ ".checksum"
  match fsReadFile E filePath s with
  | (.error e, s1) =>
    (⟨false, e.message⟩, (fsReadFile E checksumPath s1).2)
  | (.ok data, s1) =>
    match fsReadFile E checksumPath s1 with
    | (.error _, s2) => (⟨false, "No checksum file"⟩, s2)
    | (.ok saved, s2) =>
      if E.digest data = strTrim saved then (⟨true, "Valid"⟩, s2)
      else (⟨false, "Checksum mismatch"⟩, s2)

/-- Body of `createLock(filePath, retryCount)`, structurally recursive
on an explicit retry budget `gas`.  Every retry both consumes one unit
of `gas` and increments `retryCount`, and a retry is only taken when
`retryCount < MAX_RETRIES`, so starting `createLock` with
`gas = MAX_RETRIES + 1` the `gas = 0` case is unreachable (it would need
`MAX_RETRIES + 1` successive retries from `retryCount ≥ 0`); its value
is an arbitrary error.  The source has a single fallthrough
exclusive-create (`writeFile` with flag `wx`); here that create,
together with the `EEXIST` handling of the surrounding `catch`, is
spelled out at both reachable entries (no existing lock, and stale lock
just removed).  The identity-bearing error thrown for a live lock has no
`code`, so the surrounding `catch` rethrows it unchanged, as does it any
read or JSON-parse error from inspecting the existing lock. -/
def createLockGas (E : Env Val) (filePath : String) :
    Nat → Nat → Sys → Except JsError String × Sys
  | 0, _, s => (.error ⟨"retry budget exhausted", none⟩, s)
  | gas + 1, retryCount, s =>
    let lockPath := filePath ++ ".lock"
    let lockData : LockData := ⟨E.pid, s.now, E.host⟩
    if existsSync lockPath s then
      match fsReadFile E lockPath s with
      | (.error e, s1) => (.error e, s1)
      | (.ok content, s1) =>
        match E.decodeLock content with
        | none => (.error ⟨"Unexpected token in JSON", none⟩, s1)
        | some existing =>
          if s1.now - existing.timestamp > LOCK_TIMEOUT E.dev then
            let s2 := (fsUnlink E lockPath s1).2
            match fsWriteFile E lockPath (E.encodeLock lockData) true s2 with
            | (.ok _, s3) => (.ok lockPath, s3)
            | (.error e, s3) =>
              if e.code = some "EEXIST" then
                if retryCount < MAX_RETRIES ∧ E.dev = true then
                  createLockGas E filePath gas (retryCount + 1)
                    (sleep (RETRY_DELAY * 2 ^ retryCount) s3)
                else
                  (.error ⟨"File is currently locked by another process",
                    none⟩, s3)
              else (.error e, s3)
          else
            if retryCount < MAX_RETRIES ∧ E.dev = true then
              createLockGas E filePath gas (retryCount + 1)
                (sleep (RETRY_DELAY * 2 ^ retryCount) s1)
            else
              (.error ⟨"File is locked by PID " ++ toString existing.pid ++
                " on " ++ existing.hostname, none⟩, s1)
    else
      match fsWriteFile E lockPath (E.encodeLock lockData) true s with
      | (.ok _, s1) => (.ok lockPath, s1)
      | (.error e, s1) =>
        if e.code = some "EEXIST" then
          if retryCount < MAX_RETRIES ∧ E.dev = true then
            createLockGas E filePath gas (retryCount + 1)
              (sleep (RETRY_DELAY * 2 ^ retryCount) s1)
          else
            (.error ⟨"File is currently locked by another process", none⟩, s1)
        else (.error e, s1)

/-- Model of `createLock(filePath, retryCount)`. -/
def createLock (E : Env Val) (filePath : String) (retryCount : Nat)
    (s : Sys) : Except JsError String × Sys :=
  createLockGas E filePath (MAX_RETRIES + 1) retryCount s

/-- Model of `releaseLock`: unlink the lock file, swallowing any error. -/
def releaseLock (E : Env Val) (lockPath : String) (s : Sys) : Sys :=
  (fsUnlink E lockPath s).2

/-- Model of `createBackup(filePath)`: copy the primary to
the name `filePath` + `.backup.` + timestamp (the ISO timestamp is an injective
encoding of the clock, modelled as its decimal form); a copy failure is
logged and yields `null`. -/
def createBackup (E : Env Val) (filePath : String) (s : Sys) :
    Option String × Sys :=
  if existsSync filePath s then
    let backupPath := filePath ++ ".backup." ++ toString s.now
    match fsCopyFile E filePath backupPath s with
    | (.ok _, s1) => (some backupPath, s1)
    | (.error _, s1) => (none, s1)
  else
    (none, s)

/-- Insert into a list sorted by mtime descending (the JS stable
`sort((a, b) => b.mtime - a.mtime)`). -/
def insertByMtime (x : String × Nat) :
    List (String × Nat) → List (String × Nat)
  | [] => [x]
  | y :: ys => if x.2 ≤ y.2 then y :: insertByMtime x ys else x :: y :: ys

/-- Sort name/mtime pairs by mtime descending. -/
def sortByMtimeDesc : List (String × Nat) → List (String × Nat)
  | [] => []
  | x :: xs => insertByMtime x (sortByMtimeDesc xs)

/-- Model of the `fsSync.statSync` pass that maps each listed backup name
to its mtime; a missing file would make `statSync` throw, which the
callers catch around the whole enumeration, so the result is `none`. -/
def statMtimes : List String → FS → Option (List (String × Nat))
  | [], _ => some []
  | n :: ns, fs =>
    match FS.lookup fs n, statMtimes ns fs with
    | some e, some rest => some ((n, e.mtime) :: rest)
    | _, _ => none

/-- Names matching the backup naming pattern of `filePath` (in the flat
directory, `path.basename filePath = filePath`). -/
def backupNames (filePath : String) (names : List String) : List String :=
  names.filter (fun n => strStartsWith n (filePath ++ ".backup"))

/-- Unlink every named file, swallowing individual failures
(`unlink(...).catch(() => {})`). -/
def unlinkAll (E : Env Val) : List (String × Nat) → Sys → Sys
  | [], s => s
  | (n, _) :: rest, s => unlinkAll E rest (fsUnlink E n s).2

/-- Model of `cleanupBackups(filePath)`: list the backups, sort newest
first by mtime, delete everything beyond `BACKUP_COUNT`; any error of the
enumeration itself is caught and logged. -/
def cleanupBackups (E : Env Val) (filePath : String) (s : Sys) : Sys :=
  match fsReaddir E s with
  | (.error _, s1) => s1
  | (.ok names, s1) =>
    match statMtimes (backupNames filePath names) s1.files with
    | none => s1
    | some entries =>
      unlinkAll E ((sortByMtimeDesc entries).drop BACKUP_COUNT) s1

/-- The failure cleanup of `atomicWrite`: unlink both temp files,
swallowing errors. -/
def cleanupTemps (E : Env Val) (tempPath ctempPath : String) (s : Sys) :
    Sys :=
  (fsUnlink E ctempPath (fsUnlink E tempPath s).2).2

/-- The serialized bytes of a write:
the data itself when it is a JS string, and otherwise its
`JSON.stringify(data, null, 2)` serialization. -/
def dataStringOf (E : Env Val) (data : String ⊕ Val) : String :=
  Sum.elim id E.stringify data

/-- Model of `atomicWrite(filePath, data)`.  The two renames of step 5
are issued by a `Promise.all`, so both are attempted even if the first
fails, and the first error wins; on any raised error the temp files are
unlinked (best effort) before it propagates; the lock, once acquired, is
always released in the `finally`. -/
def atomicWrite (E : Env Val) (filePath : String) (data : String ⊕ Val)
    (s : Sys) : Except JsError Bool × Sys :=
  let tempPath := filePath ++ ".tmp"
  let checksumPath := filePath ++ ".checksum"
  let ctempPath := checksumPath ++ ".tmp"
  match createLock E filePath 0 s with
  | (.error e, s1) => (.error e, cleanupTemps E tempPath ctempPath s1)
  | (.ok lockPath, s1) =>
    let s2 := (createBackup E filePath s1).2
    let dataString := dataStringOf E data
    match fsWriteFile E tempPath dataString false s2 with
    | (.error e, s3) =>
      (.error e, releaseLock E lockPath (cleanupTemps E tempPath ctempPath s3))
    | (.ok _, s3) =>
      let checksum := E.digest dataString
      match fsWriteFile E ctempPath checksum false s3 with
      | (.error e, s4) =>
        (.error e,
          releaseLock E lockPath (cleanupTemps E tempPath ctempPath s4))
      | (.ok _, s4) =>
        match fsRename E tempPath filePath s4 with
        | (.error e1, s5) =>
          let s6 := (fsRename E ctempPath checksumPath s5).2
          (.error e1,
            releaseLock E lockPath (cleanupTemps E tempPath ctempPath s6))
        | (.ok _, s5) =>
          match fsRename E ctempPath checksumPath s5 with
          | (.error e2, s6) =>
            (.error e2,
              releaseLock E lockPath (cleanupTemps E tempPath ctempPath s6))
          | (.ok _, s6) =>
            match verifyChecksum E filePath s6 with
            | (v, s7) =>
              if v.valid then
                (.ok true, releaseLock E lockPath (cleanupBackups E filePath s7))
              else
                (.error ⟨"Data integrity check failed: " ++ v.reason, none⟩,
                  releaseLock E lockPath
                    (cleanupTemps E tempPath ctempPath s7))

/-- The backup loop of `recoverFromBackup`: newest first, read and parse
each backup, promote the first parseable one back into the primary via
`atomicWrite`; any failure (read, parse, or promote) moves on to the
next-older backup. -/
def recoverLoop (E : Env Val) (filePath : String) :
    List (String × Nat) → Sys → Option (String ⊕ Val) × Sys
  | [], s => (none, s)
  | (name, _) :: rest, s =>
    match fsReadFile E name s with
    | (.error _, s1) => recoverLoop E filePath rest s1
    | (.ok content, s1) =>
      match E.parse content with
      | none => recoverLoop E filePath rest s1
      | some parsed =>
        match atomicWrite E filePath parsed s1 with
        | (.ok _, s2) => (some parsed, s2)
        | (.error _, s2) => recoverLoop E filePath rest s2

/-- Model of `recoverFromBackup(filePath)`: enumerate the backups (any
enumeration error is caught and yields `null`), sort newest first, and
run the recovery loop. -/
def recoverFromBackup (E : Env Val) (filePath : String) (s : Sys) :
    Option (String ⊕ Val) × Sys :=
  match fsReaddir E s with
  | (.error _, s1) => (none, s1)
  | (.ok names, s1) =>
    match statMtimes (backupNames filePath names) s1.files with
    | none => (none, s1)
    | some entries =>
      recoverLoop E filePath (sortByMtimeDesc entries) s1

/-- Model of `safeRead(filePath)`.  `none` is the `null` returned for an
absent file.  When verification fails, recovery is attempted; if it
yields nothing the corruption error is thrown, which the outer `catch`
intercepts to attempt recovery once more before rethrowing.  A read
error on a checksum-valid file follows the same outer `catch` path.  A
parse failure on checksum-valid content returns the raw string. -/
def safeRead (E : Env Val) (filePath : String) (s : Sys) :
    Except JsError (Option (String ⊕ Val)) × Sys :=
  if existsSync filePath s then
    match verifyChecksum E filePath s with
    | (v, s1) =>
      if v.valid then
        match fsReadFile E filePath s1 with
        | (.error e, s2) =>
          match recoverFromBackup E filePath s2 with
          | (some r, s3) => (.ok (some r), s3)
          | (none, s3) => (.error e, s3)
        | (.ok data, s2) =>
          match E.parse data with
          | some w => (.ok (some w), s2)
          | none => (.ok (some (.inl data)), s2)
      else
        match recoverFromBackup E filePath s1 with
        | (some r, s2) => (.ok (some r), s2)
        | (none, s2) =>
          match recoverFromBackup E filePath s2 with
          | (some r, s3) => (.ok (some r), s3)
          | (none, s3) =>
            (.error ⟨"Data corruption detected and recovery failed: " ++
              v.reason, none⟩, s3)
  else
    (.ok none, s)

/-- Model of `initializeFile(filePath, defaultData)`: create the file
with the default when absent, otherwise read it; on any failure make one
last attempt to write the default and raise only if that also fails. -/
def initializeFile (E : Env Val) (filePath : String)
    (defaultData : String ⊕ Val) (s : Sys) :
    Except JsError (Option (String ⊕ Val)) × Sys :=
  if existsSync filePath s then
    match safeRead E filePath s with
    | (.ok w, s1) => (.ok w, s1)
    | (.error _, s1) =>
      match atomicWrite E filePath defaultData s1 with
      | (.ok _, s2) => (.ok (some defaultData), s2)
      | (.error e2, s2) => (.error e2, s2)
  else
    match atomicWrite E filePath defaultData s with
    | (.ok _, s1) => (.ok (some defaultData), s1)
    | (.error _, s1) =>
      match atomicWrite E filePath defaultData s1 with
      | (.ok _, s2) => (.ok (some defaultData), s2)
      | (.error e2, s2) => (.error e2, s2)

/-- Concrete example codec used by witnesses: collection values are
natural numbers, serialized by `toString`; `exParse` recognizes the two
numerals the witnesses use and a `q`-prefixed form standing for a JSON
string literal, and rejects everything else (a thrown `SyntaxError`). -/
def exParse (s : String) : Option (String ⊕ Nat) :=
  if s = "7" then some (.inr 7) else
  if s = "13" then some (.inr 13) else
  if strStartsWith s "q" then some (.inl ⟨s.data.drop 1⟩) else none

/-- Concrete example digest for witnesses: a short tag depending on the
content length (whitespace-free, as a SHA-256 hex digest is). -/
def exDigest (s : String) : String := "h" ++ toString s.data.length

/-- Concrete example encoding of the lock record for witnesses. -/
def exEncodeLock (d : LockData) : String :=
  "pid=" ++ toString d.pid ++ ";ts=" ++ toString d.timestamp ++
    ";host=" ++ d.hostname

/-- Concrete example decoding of the lock record for witnesses: the two
lock files the witnesses place on disk decode to a stale holder and a
live holder respectively. -/
def exDecodeLock (s : String) : Option LockData :=
  if s = "L1" then some ⟨99, 5, "remote"⟩ else
  if s = "L2" then some ⟨77, 15000, "remote2"⟩ else none

/-- Fault oracle under which every I/O primitive succeeds. -/
def noFault : Nat → Bool := fun _ => false

/-- Fault oracle under which exactly the `k`-th I/O primitive fails. -/
def singleFault (k : Nat) : Nat → Bool := fun n => decide (n = k)

/-- Concrete environment for witnesses, over the example codec. -/
def exEnv (f : Nat → Bool) (dev : Bool) : Env Nat :=
  { stringify := toString, parse := exParse, digest := exDigest,
    encodeLock := exEncodeLock, decodeLock := exDecodeLock,
    flt := f, dev := dev, pid := 7, host := "local" }


/-! ## Claim theorems -/

/-- C5: when a lock file exists whose recorded timestamp is older than
the configured lock timeout (now minus timestamp exceeds the timeout),
the acquirer deletes the stale lock file and then succeeds, creating a
new lock file recording its own pid, hostname and acquisition time. -/
theorem claim5_stale_lock_takeover {Val : Type}
    (E : Env Val) (d : LockData) (lk : String) (m t i : Nat)
    (hnf : ∀ n, E.flt n = false)
    (hdec : E.decodeLock lk = some d)
    (hstale : LOCK_TIMEOUT E.dev < t + 1 - d.timestamp) :
    createLock E "db" 0 ⟨[("db.lock", ⟨lk, m⟩)], t, i⟩ =
      (.ok "db.lock",
        ⟨[("db.lock", ⟨E.encodeLock ⟨E.pid, t, E.host⟩, t + 3⟩)],
          t + 3, i + 3⟩) := by
  simp [createLock, createLockGas, existsSync, fsReadFile, fsUnlink,
    fsWriteFile, FS.lookup, FS.remove, FS.set, tick, hnf, hdec, hstale]

/-- Witness for C5 at a concrete stale lock. -/
theorem claim5_stale_lock_takeover_witness :
    createLock (exEnv noFault false) "db" 0
        ⟨[("db.lock", ⟨"L1", 2⟩)], 20000, 0⟩ =
      (.ok "db.lock",
        ⟨[("db.lock", ⟨exEncodeLock ⟨7, 20000, "local"⟩, 20003⟩)],
          20003, 3⟩) :=
  claim5_stale_lock_takeover (exEnv noFault false) ⟨99, 5, "remote"⟩ "L1" 2
    20000 0 (fun _ => rfl) (by decide) (by decide)

/-- C6 (amended): in the no-retry configuration, a lock-acquisition
attempt that reads another valid (non-stale) lock fails immediately with
an error naming the holder pid and hostname; an `EEXIST`-class failure
of the exclusive create (reachable when the removal of a stale lock
fails silently) also fails immediately, but with the generic message
`File is currently locked by another process`, which does not carry the
holder identity. -/
theorem claim6_lock_held_reporting {Val : Type}
    (E : Env Val) (d1 d2 : LockData) (lk1 lk2 : String) (m t : Nat)
    (hdev : E.dev = false)
    (hf0 : E.flt 0 = false) (hf1 : E.flt 1 = true) (hf2 : E.flt 2 = false)
    (hdec1 : E.decodeLock lk1 = some d1)
    (hlive : ¬ (LOCK_TIMEOUT E.dev < t + 1 - d1.timestamp))
    (hdec2 : E.decodeLock lk2 = some d2)
    (hstale : LOCK_TIMEOUT E.dev < t + 1 - d2.timestamp) :
    createLock E "db" 0 ⟨[("db.lock", ⟨lk1, m⟩)], t, 0⟩ =
      (.error ⟨"File is locked by PID " ++ toString d1.pid ++ " on " ++
        d1.hostname, none⟩, ⟨[("db.lock", ⟨lk1, m⟩)], t + 1, 1⟩) ∧
    createLock E "db" 0 ⟨[("db.lock", ⟨lk2, m⟩)], t, 0⟩ =
      (.error ⟨"File is currently locked by another process", none⟩,
        ⟨[("db.lock", ⟨lk2, m⟩)], t + 3, 3⟩) := by
  constructor
  · simp [createLock, createLockGas, existsSync, fsReadFile, fsUnlink,
      fsWriteFile, FS.lookup, FS.remove, FS.set, tick, hf0, hdec1, hlive,
      hdev, MAX_RETRIES]
    rw [hdev] at hlive
    simp [LOCK_TIMEOUT] at hlive ⊢
    omega
  · simp [createLock, createLockGas, existsSync, fsReadFile, fsUnlink,
      fsWriteFile, FS.lookup, FS.remove, FS.set, tick, hf0, hf1, hf2, hdec2,
      hstale, hdev, MAX_RETRIES]
    rw [hdev] at hstale
    simp [LOCK_TIMEOUT] at hstale ⊢
    omega

/-- Witness for C6 at a concrete live lock and a concrete stale lock
whose removal fails. -/
theorem claim6_lock_held_reporting_witness :
    createLock (exEnv (singleFault 1) false) "db" 0
        ⟨[("db.lock", ⟨"L2", 2⟩)], 20000, 0⟩ =
      (.error ⟨"File is locked by PID " ++ toString 77 ++ " on " ++
        "remote2", none⟩, ⟨[("db.lock", ⟨"L2", 2⟩)], 20001, 1⟩) ∧
    createLock (exEnv (singleFault 1) false) "db" 0
        ⟨[("db.lock", ⟨"L1", 2⟩)], 20000, 0⟩ =
      (.error ⟨"File is currently locked by another process", none⟩,
        ⟨[("db.lock", ⟨"L1", 2⟩)], 20003, 3⟩) :=
  claim6_lock_held_reporting (exEnv (singleFault 1) false)
    ⟨77, 15000, "remote2"⟩ ⟨99, 5, "remote"⟩ "L2" "L1" 2 20000 rfl
    (by decide) (by decide) (by decide) (by decide) (by decide) (by decide)
    (by decide)

/-- C6 counterexample: an acquisition that fails through the
`EEXIST`-class branch raises the generic holder-free error, not the
identity-bearing one the claim requires for that detection path. -/
theorem claim6_counterexample :
    (createLock (exEnv (singleFault 1) false) "db" 0
        ⟨[("db.lock", ⟨"L1", 2⟩)], 20000, 0⟩).1 =
      .error ⟨"File is currently locked by another process", none⟩ ∧
    (⟨"File is currently locked by another process", none⟩ : JsError) ≠
      ⟨"File is locked by PID " ++ toString 99 ++ " on " ++ "remote",
        none⟩ := by
  decide

/-- C9 (amended): when the checksum sidecar is missing, `verifyChecksum`
reports invalid with reason `No checksum file`; when the primary read
fails it reports invalid with the underlying error message; when both
reads succeed it reports valid exactly when the digest of the file
equals the trimmed sidecar contents. -/
theorem claim9_verify_reporting {Val : Type}
    (E : Env Val) (c sum : String) (m mc t i : Nat)
    (hnf : ∀ n, E.flt n = false) :
    (verifyChecksum E "db" ⟨[("db", ⟨c, m⟩)], t, i⟩).1 =
        ⟨false, "No checksum file"⟩ ∧
    (verifyChecksum E "db" ⟨[], t, i⟩).1 =
        ⟨false, "ENOENT: no such file or directory, open db"⟩ ∧
    (verifyChecksum E "db"
        ⟨[("db", ⟨c, m⟩), ("db.checksum", ⟨sum, mc⟩)], t, i⟩).1 =
      (if E.digest c = strTrim sum then ⟨true, "Valid"⟩
       else ⟨false, "Checksum mismatch"⟩) := by
  refine ⟨?_, ?_, ?_⟩ <;>
    simp [verifyChecksum, fsReadFile, FS.lookup, tick, hnf]
  split <;> rfl

/-- Witness for C9 at concrete contents. -/
theorem claim9_verify_reporting_witness :
    (verifyChecksum (exEnv noFault false) "db" ⟨[("db", ⟨"X", 1⟩)], 0, 0⟩).1 =
        ⟨false, "No checksum file"⟩ ∧
    (verifyChecksum (exEnv noFault false) "db" ⟨[], 0, 0⟩).1 =
        ⟨false, "ENOENT: no such file or directory, open db"⟩ ∧
    (verifyChecksum (exEnv noFault false) "db"
        ⟨[("db", ⟨"X", 1⟩), ("db.checksum", ⟨"ss", 2⟩)], 0, 0⟩).1 =
      (if (exEnv noFault false).digest "X" = strTrim "ss" then
        ⟨true, "Valid"⟩ else ⟨false, "Checksum mismatch"⟩) :=
  claim9_verify_reporting (exEnv noFault false) "X" "ss" 1 2 0 0
    (fun _ => rfl)

/-- C9 counterexample: the missing-sidecar reason is `No checksum file`,
not `missing checksum`, and a sidecar that differs from the digest only
by trailing whitespace is accepted as valid, so validity is not
equality of the digest with the raw sidecar contents. -/
theorem claim9_counterexample :
    (verifyChecksum (exEnv noFault false) "db"
        ⟨[("db", ⟨"X", 1⟩)], 0, 0⟩).1 = ⟨false, "No checksum file"⟩ ∧
    "No checksum file" ≠ "missing checksum" ∧
    (verifyChecksum (exEnv noFault false) "db"
        ⟨[("db", ⟨"X", 1⟩), ("db.checksum", ⟨"h1 ", 2⟩)], 0, 0⟩).1.valid =
      true ∧
    exDigest "X" ≠ "h1 " := by
  decide

/-- C2: a successful `write` immediately followed by `read`, with no
intervening writes or corruption, returns a value deep-equal to the
written collection, both on a fresh store and over an existing
primary/checksum pair. -/
theorem claim2_write_read_round_trip {Val : Type}
    (E : Env Val) (data : Val) (old osum : String)
    (hnf : ∀ n, E.flt n = false)
    (htrim : strTrim (E.digest (E.stringify data)) =
      E.digest (E.stringify data))
    (hparse : E.parse (E.stringify data) = some (.inr data)) :
    ((atomicWrite E "db" (.inr data) ⟨[], 100, 0⟩).1 = .ok true ∧
      (safeRead E "db" (atomicWrite E "db" (.inr data) ⟨[], 100, 0⟩).2).1 =
        .ok (some (.inr data))) ∧
    ((atomicWrite E "db" (.inr data)
        ⟨[("db", ⟨old, 10⟩), ("db.checksum", ⟨osum, 11⟩)], 100, 0⟩).1 =
          .ok true ∧
      (safeRead E "db" (atomicWrite E "db" (.inr data)
        ⟨[("db", ⟨old, 10⟩), ("db.checksum", ⟨osum, 11⟩)], 100, 0⟩).2).1 =
        .ok (some (.inr data))) := by
  have h101 : (toString (101 : Nat)) = "101" := by decide
  refine ⟨⟨?_, ?_⟩, ⟨?_, ?_⟩⟩ <;>
    simp [h101, atomicWrite, safeRead, createLock, createLockGas,
      createBackup, cleanupBackups, cleanupTemps, releaseLock,
      verifyChecksum, recoverFromBackup, recoverLoop, dataStringOf,
      existsSync, fsReadFile, fsWriteFile, fsRename, fsCopyFile, fsUnlink,
      fsReaddir, FS.lookup, FS.remove, FS.set, FS.names, statMtimes,
      backupNames, sortByMtimeDesc, insertByMtime, unlinkAll, strStartsWith,
      BACKUP_COUNT, tick, hnf, htrim, hparse]

/-- Witness for C2 writing the collection `7`. -/
theorem claim2_write_read_round_trip_witness :
    ((atomicWrite (exEnv noFault false) "db" (.inr 7) ⟨[], 100, 0⟩).1 =
        .ok true ∧
      (safeRead (exEnv noFault false) "db"
        (atomicWrite (exEnv noFault false) "db" (.inr 7) ⟨[], 100, 0⟩).2).1 =
        .ok (some (.inr 7))) ∧
    ((atomicWrite (exEnv noFault false) "db" (.inr 7)
        ⟨[("db", ⟨"OLD", 10⟩), ("db.checksum", ⟨"h3", 11⟩)], 100, 0⟩).1 =
          .ok true ∧
      (safeRead (exEnv noFault false) "db"
        (atomicWrite (exEnv noFault false) "db" (.inr 7)
          ⟨[("db", ⟨"OLD", 10⟩), ("db.checksum", ⟨"h3", 11⟩)],
            100, 0⟩).2).1 = .ok (some (.inr 7))) :=
  claim2_write_read_round_trip (exEnv noFault false) 7 "OLD" "h3"
    (fun _ => rfl) (by decide) (by decide)

/-- C8: on a store whose primary exists and passes verification,
`initializeFile` returns the stored content and leaves every file
(primary, checksum, backups) untouched. -/
theorem claim8_idempotent_initialization {Val : Type}
    (E : Env Val) (c sum : String) (w dflt : String ⊕ Val)
    (hnf : ∀ n, E.flt n = false)
    (hval : E.digest c = strTrim sum)
    (hp : E.parse c = some w) :
    initializeFile E "db" dflt
        ⟨[("db", ⟨c, 10⟩), ("db.checksum", ⟨sum, 11⟩)], 100, 0⟩ =
      (.ok (some w),
        ⟨[("db", ⟨c, 10⟩), ("db.checksum", ⟨sum, 11⟩)], 103, 3⟩) := by
  simp [initializeFile, safeRead, verifyChecksum, existsSync, fsReadFile,
    FS.lookup, tick, hnf, hval, hp]

/-- Witness for C8 on a valid store holding `13`. -/
theorem claim8_idempotent_initialization_witness :
    initializeFile (exEnv noFault false) "db" (.inr 7)
        ⟨[("db", ⟨"13", 10⟩), ("db.checksum", ⟨"h2", 11⟩)], 100, 0⟩ =
      (.ok (some (.inr 13)),
        ⟨[("db", ⟨"13", 10⟩), ("db.checksum", ⟨"h2", 11⟩)], 103, 3⟩) :=
  claim8_idempotent_initialization (exEnv noFault false) "13" "h2"
    (.inr 13) (.inr 7) (fun _ => rfl) (by decide) (by decide)

/-- C10: when the primary passes verification but its contents do not
parse as JSON, `safeRead` neither raises nor recovers: it returns the
raw contents as a string value, the very value it would return for a
store holding that string as parsed data, so the two cases are
indistinguishable to the caller. -/
theorem claim10_invalid_json_raw_fallback {Val : Type}
    (E : Env Val) (c c2 sum sum2 : String)
    (hnf : ∀ n, E.flt n = false)
    (hval : E.digest c = strTrim sum)
    (hnoparse : E.parse c = none)
    (hval2 : E.digest c2 = strTrim sum2)
    (hparse2 : E.parse c2 = some (.inl c)) :
    safeRead E "db" ⟨[("db", ⟨c, 10⟩), ("db.checksum", ⟨sum, 11⟩)], 100, 0⟩ =
      (.ok (some (.inl c)),
        ⟨[("db", ⟨c, 10⟩), ("db.checksum", ⟨sum, 11⟩)], 103, 3⟩) ∧
    safeRead E "db"
        ⟨[("db", ⟨c2, 10⟩), ("db.checksum", ⟨sum2, 11⟩)], 100, 0⟩ =
      (.ok (some (.inl c)),
        ⟨[("db", ⟨c2, 10⟩), ("db.checksum", ⟨sum2, 11⟩)], 103, 3⟩) := by
  constructor <;>
    simp [safeRead, verifyChecksum, existsSync, fsReadFile, FS.lookup, tick,
      hnf, hval, hnoparse, hval2, hparse2]

/-- Witness for C10: raw unparseable content versus a stored string. -/
theorem claim10_invalid_json_raw_fallback_witness :
    safeRead (exEnv noFault false) "db"
        ⟨[("db", ⟨"xbad", 10⟩), ("db.checksum", ⟨"h4", 11⟩)], 100, 0⟩ =
      (.ok (some (.inl "xbad")),
        ⟨[("db", ⟨"xbad", 10⟩), ("db.checksum", ⟨"h4", 11⟩)], 103, 3⟩) ∧
    safeRead (exEnv noFault false) "db"
        ⟨[("db", ⟨"qxbad", 10⟩), ("db.checksum", ⟨"h5", 11⟩)], 100, 0⟩ =
      (.ok (some (.inl "xbad")),
        ⟨[("db", ⟨"qxbad", 10⟩), ("db.checksum", ⟨"h5", 11⟩)], 103, 3⟩) :=
  claim10_invalid_json_raw_fallback (exEnv noFault false) "xbad" "qxbad"
    "h4" "h5" (fun _ => rfl) (by decide) (by decide) (by decide) (by decide)

/-- C4: when the primary fails verification and every backup fails to
parse (or no backup exists), `safeRead` raises an error that carries the
original verification failure reason, leaving the files untouched. -/
theorem claim4_unrecoverable_corruption {Val : Type}
    (E : Env Val) (c sum bc : String)
    (hnf : ∀ n, E.flt n = false)
    (hbad : ¬ (E.digest c = strTrim sum))
    (hnb : E.parse bc = none) :
    safeRead E "db" ⟨[("db", ⟨c, 10⟩), ("db.checksum", ⟨sum, 11⟩)], 100, 0⟩ =
      (.error ⟨"Data corruption detected and recovery failed: " ++
        "Checksum mismatch", none⟩,
        ⟨[("db", ⟨c, 10⟩), ("db.checksum", ⟨sum, 11⟩)], 104, 4⟩) ∧
    safeRead E "db"
        ⟨[("db", ⟨c, 10⟩), ("db.checksum", ⟨sum, 11⟩),
          ("db.backup.50", ⟨bc, 50⟩)], 100, 0⟩ =
      (.error ⟨"Data corruption detected and recovery failed: " ++
        "Checksum mismatch", none⟩,
        ⟨[("db", ⟨c, 10⟩), ("db.checksum", ⟨sum, 11⟩),
          ("db.backup.50", ⟨bc, 50⟩)], 106, 6⟩) := by
  constructor <;>
    simp [safeRead, verifyChecksum, recoverFromBackup, recoverLoop,
      existsSync, fsReadFile, fsReaddir, FS.lookup, FS.names, statMtimes,
      backupNames, sortByMtimeDesc, insertByMtime, strStartsWith, tick,
      hnf, hbad, hnb]

/-- Witness for C4 at concrete corrupt contents. -/
theorem claim4_unrecoverable_corruption_witness :
    safeRead (exEnv noFault false) "db"
        ⟨[("db", ⟨"CORRUPT", 10⟩), ("db.checksum", ⟨"zz", 11⟩)], 100, 0⟩ =
      (.error ⟨"Data corruption detected and recovery failed: " ++
        "Checksum mismatch", none⟩,
        ⟨[("db", ⟨"CORRUPT", 10⟩), ("db.checksum", ⟨"zz", 11⟩)],
          104, 4⟩) ∧
    safeRead (exEnv noFault false) "db"
        ⟨[("db", ⟨"CORRUPT", 10⟩), ("db.checksum", ⟨"zz", 11⟩),
          ("db.backup.50", ⟨"notjson", 50⟩)], 100, 0⟩ =
      (.error ⟨"Data corruption detected and recovery failed: " ++
        "Checksum mismatch", none⟩,
        ⟨[("db", ⟨"CORRUPT", 10⟩), ("db.checksum", ⟨"zz", 11⟩),
          ("db.backup.50", ⟨"notjson", 50⟩)], 106, 6⟩) :=
  claim4_unrecoverable_corruption (exEnv noFault false) "CORRUPT" "zz"
    "notjson" (fun _ => rfl) (by decide) (by decide)

/-- C3: when the primary fails verification, `safeRead` walks the
backups newest first, skips one that does not parse, returns the content
of the newest parseable backup, promotes it back into the primary (and
its checksum) via the atomic writer, and verification of the primary
afterwards reports valid. -/
theorem claim3_recovery_from_newest_backup {Val : Type}
    (E : Env Val) (c sum bc gc : String) (v : String ⊕ Val)
    (hnf : ∀ n, E.flt n = false)
    (hbad : ¬ (E.digest c = strTrim sum))
    (hnb : E.parse bc = none)
    (hg : E.parse gc = some v)
    (htrim : strTrim (E.digest (dataStringOf E v)) =
      E.digest (dataStringOf E v)) :
    safeRead E "db"
        ⟨[("db", ⟨c, 10⟩), ("db.checksum", ⟨sum, 11⟩),
          ("db.backup.50", ⟨bc, 50⟩), ("db.backup.30", ⟨gc, 30⟩)],
          100, 0⟩ =
      (.ok (some v),
        ⟨[("db", ⟨dataStringOf E v, 108⟩),
          ("db.checksum", ⟨E.digest (dataStringOf E v), 109⟩),
          ("db.backup.50", ⟨bc, 50⟩), ("db.backup.30", ⟨gc, 30⟩),
          ("db.backup.106", ⟨c, 107⟩)], 115, 15⟩) ∧
    (verifyChecksum E "db"
        ⟨[("db", ⟨dataStringOf E v, 108⟩),
          ("db.checksum", ⟨E.digest (dataStringOf E v), 109⟩),
          ("db.backup.50", ⟨bc, 50⟩), ("db.backup.30", ⟨gc, 30⟩),
          ("db.backup.106", ⟨c, 107⟩)], 115, 15⟩).1 =
      ⟨true, "Valid"⟩ := by
  have h106 : (toString (106 : Nat)) = "106" := by decide
  constructor <;>
    simp [h106, safeRead, verifyChecksum, recoverFromBackup, recoverLoop,
      atomicWrite, createLock, createLockGas, createBackup, cleanupBackups,
      cleanupTemps, releaseLock, existsSync, fsReadFile, fsWriteFile,
      fsRename, fsCopyFile, fsUnlink, fsReaddir, FS.lookup, FS.remove,
      FS.set, FS.names, statMtimes, backupNames, sortByMtimeDesc,
      insertByMtime, unlinkAll, strStartsWith, BACKUP_COUNT, tick,
      hnf, hbad, hnb, hg, htrim]

/-- Witness for C3: the newest backup is unparseable, the older one
holds the collection `13`. -/
theorem claim3_recovery_from_newest_backup_witness :
    safeRead (exEnv noFault false) "db"
        ⟨[("db", ⟨"CORRUPT", 10⟩), ("db.checksum", ⟨"zz", 11⟩),
          ("db.backup.50", ⟨"notjson", 50⟩), ("db.backup.30", ⟨"13", 30⟩)],
          100, 0⟩ =
      (.ok (some (.inr 13)),
        ⟨[("db", ⟨dataStringOf (exEnv noFault false) (.inr 13), 108⟩),
          ("db.checksum", ⟨(exEnv noFault false).digest
            (dataStringOf (exEnv noFault false) (.inr 13)), 109⟩),
          ("db.backup.50", ⟨"notjson", 50⟩), ("db.backup.30", ⟨"13", 30⟩),
          ("db.backup.106", ⟨"CORRUPT", 107⟩)], 115, 15⟩) ∧
    (verifyChecksum (exEnv noFault false) "db"
        ⟨[("db", ⟨dataStringOf (exEnv noFault false) (.inr 13), 108⟩),
          ("db.checksum", ⟨(exEnv noFault false).digest
            (dataStringOf (exEnv noFault false) (.inr 13)), 109⟩),
          ("db.backup.50", ⟨"notjson", 50⟩), ("db.backup.30", ⟨"13", 30⟩),
          ("db.backup.106", ⟨"CORRUPT", 107⟩)], 115, 15⟩).1 =
      ⟨true, "Valid"⟩ :=
  claim3_recovery_from_newest_backup (exEnv noFault false) "CORRUPT" "zz"
    "notjson" "13" (.inr 13) (fun _ => rfl) (by decide) (by decide)
    (by decide) (by decide)

/-- C7: a successful write from a store carrying six backups first
snapshots the primary (a seventh backup) and then prunes: exactly
`BACKUP_COUNT = 5` backups remain, and they are precisely the five most
recent by modification time (the fresh snapshot and the four newest
previous ones); the two oldest are deleted. -/
theorem claim7_backup_retention {Val : Type}
    (E : Env Val) (data : Val) (old osum c20 c30 c40 c50 c60 c70 : String)
    (hnf : ∀ n, E.flt n = false)
    (htrim : strTrim (E.digest (E.stringify data)) =
      E.digest (E.stringify data)) :
    atomicWrite E "db" (.inr data)
        ⟨[("db", ⟨old, 10⟩), ("db.checksum", ⟨osum, 11⟩),
          ("db.backup.20", ⟨c20, 20⟩), ("db.backup.30", ⟨c30, 30⟩),
          ("db.backup.40", ⟨c40, 40⟩), ("db.backup.50", ⟨c50, 50⟩),
          ("db.backup.60", ⟨c60, 60⟩), ("db.backup.70", ⟨c70, 70⟩)],
          100, 0⟩ =
      (.ok true,
        ⟨[("db", ⟨E.stringify data, 103⟩),
          ("db.checksum", ⟨E.digest (E.stringify data), 104⟩),
          ("db.backup.40", ⟨c40, 40⟩), ("db.backup.50", ⟨c50, 50⟩),
          ("db.backup.60", ⟨c60, 60⟩), ("db.backup.70", ⟨c70, 70⟩),
          ("db.backup.101", ⟨old, 102⟩)], 112, 12⟩) := by
  have h101 : (toString (101 : Nat)) = "101" := by decide
  simp [h101, atomicWrite, createLock, createLockGas, createBackup,
    cleanupBackups, cleanupTemps, releaseLock, verifyChecksum, dataStringOf,
    existsSync, fsReadFile, fsWriteFile, fsRename, fsCopyFile, fsUnlink,
    fsReaddir, FS.lookup, FS.remove, FS.set, FS.names, statMtimes,
    backupNames, sortByMtimeDesc, insertByMtime, unlinkAll, strStartsWith,
    BACKUP_COUNT, tick, hnf, htrim]

/-- Witness for C7 at concrete backup contents. -/
theorem claim7_backup_retention_witness :
    atomicWrite (exEnv noFault false) "db" (.inr 7)
        ⟨[("db", ⟨"OLD", 10⟩), ("db.checksum", ⟨"h3", 11⟩),
          ("db.backup.20", ⟨"a", 20⟩), ("db.backup.30", ⟨"b", 30⟩),
          ("db.backup.40", ⟨"c", 40⟩), ("db.backup.50", ⟨"d", 50⟩),
          ("db.backup.60", ⟨"e", 60⟩), ("db.backup.70", ⟨"f", 70⟩)],
          100, 0⟩ =
      (.ok true,
        ⟨[("db", ⟨(exEnv noFault false).stringify 7, 103⟩),
          ("db.checksum", ⟨(exEnv noFault false).digest
            ((exEnv noFault false).stringify 7), 104⟩),
          ("db.backup.40", ⟨"c", 40⟩), ("db.backup.50", ⟨"d", 50⟩),
          ("db.backup.60", ⟨"e", 60⟩), ("db.backup.70", ⟨"f", 70⟩),
          ("db.backup.101", ⟨"OLD", 102⟩)], 112, 12⟩) :=
  claim7_backup_retention (exEnv noFault false) 7 "OLD" "h3" "a" "b" "c"
    "d" "e" "f" (fun _ => rfl) (by decide)

/-- C1 (amended): a write that raises an error always deletes both temp
files and the lock file before the error propagates; when the single
failing operation lies before the rename step (the lock write, the
temp-data write or the temp-checksum write), the primary and the
checksum still hold exactly the bytes they held before the call; a
failure at the renames or at post-write verification is raised but can
leave the primary and/or checksum already replaced. -/
theorem claim1_cleanup_on_failure {Val : Type}
    (E : Env Val) (data : String ⊕ Val) (old osum : String) (k : Nat)
    (e : JsError)
    (hk : k ≤ 7)
    (hflt : ∀ n, E.flt n = decide (n = k))
    (htrim : strTrim (E.digest (dataStringOf E data)) =
      E.digest (dataStringOf E data))
    (he : (atomicWrite E "db" data
      ⟨[("db", ⟨old, 10⟩), ("db.checksum", ⟨osum, 11⟩)], 100, 0⟩).1 =
        .error e) :
    FS.lookup (atomicWrite E "db" data
      ⟨[("db", ⟨old, 10⟩), ("db.checksum", ⟨osum, 11⟩)], 100, 0⟩).2.files
        "db.tmp" = none ∧
    FS.lookup (atomicWrite E "db" data
      ⟨[("db", ⟨old, 10⟩), ("db.checksum", ⟨osum, 11⟩)], 100, 0⟩).2.files
        "db.checksum.tmp" = none ∧
    FS.lookup (atomicWrite E "db" data
      ⟨[("db", ⟨old, 10⟩), ("db.checksum", ⟨osum, 11⟩)], 100, 0⟩).2.files
        "db.lock" = none ∧
    (k ≤ 3 →
      FS.lookup (atomicWrite E "db" data
        ⟨[("db", ⟨old, 10⟩), ("db.checksum", ⟨osum, 11⟩)], 100, 0⟩).2.files
          "db" = some ⟨old, 10⟩ ∧
      FS.lookup (atomicWrite E "db" data
        ⟨[("db", ⟨old, 10⟩), ("db.checksum", ⟨osum, 11⟩)], 100, 0⟩).2.files
          "db.checksum" = some ⟨osum, 11⟩) := by
  have h101 : (toString (101 : Nat)) = "101" := by decide
  interval_cases k <;>
  · set p := atomicWrite E "db" data
      ⟨[("db", ⟨old, 10⟩), ("db.checksum", ⟨osum, 11⟩)], 100, 0⟩ with hp
    have hrun := hp
    simp [h101, atomicWrite, createLock, createLockGas, createBackup,
      cleanupBackups, cleanupTemps, releaseLock, verifyChecksum,
      existsSync, fsReadFile, fsWriteFile, fsRename, fsCopyFile, fsUnlink,
      fsReaddir, FS.lookup, FS.remove, FS.set, FS.names, statMtimes,
      backupNames, sortByMtimeDesc, insertByMtime, unlinkAll, strStartsWith,
      BACKUP_COUNT, tick, hflt, htrim] at hrun
    rw [hrun] at he ⊢
    simp_all [FS.lookup]

/-- Witness for C1: the temp-data write (operation 2) fails; the raised
write error leaves primary and checksum unchanged and no temp or lock
files behind. -/
theorem claim1_cleanup_on_failure_witness :
    FS.lookup (atomicWrite (exEnv (singleFault 2) false) "db" (.inr 7)
      ⟨[("db", ⟨"OLD", 10⟩), ("db.checksum", ⟨"h3", 11⟩)], 100, 0⟩).2.files
        "db.tmp" = none ∧
    FS.lookup (atomicWrite (exEnv (singleFault 2) false) "db" (.inr 7)
      ⟨[("db", ⟨"OLD", 10⟩), ("db.checksum", ⟨"h3", 11⟩)], 100, 0⟩).2.files
        "db.checksum.tmp" = none ∧
    FS.lookup (atomicWrite (exEnv (singleFault 2) false) "db" (.inr 7)
      ⟨[("db", ⟨"OLD", 10⟩), ("db.checksum", ⟨"h3", 11⟩)], 100, 0⟩).2.files
        "db.lock" = none ∧
    (2 ≤ 3 →
      FS.lookup (atomicWrite (exEnv (singleFault 2) false) "db" (.inr 7)
        ⟨[("db", ⟨"OLD", 10⟩), ("db.checksum", ⟨"h3", 11⟩)],
          100, 0⟩).2.files "db" = some ⟨"OLD", 10⟩ ∧
      FS.lookup (atomicWrite (exEnv (singleFault 2) false) "db" (.inr 7)
        ⟨[("db", ⟨"OLD", 10⟩), ("db.checksum", ⟨"h3", 11⟩)],
          100, 0⟩).2.files "db.checksum" = some ⟨"h3", 11⟩) :=
  claim1_cleanup_on_failure (exEnv (singleFault 2) false) (.inr 7) "OLD"
    "h3" 2 ⟨"EIO: i/o error, write db.tmp", some "EIO"⟩ (by decide)
    (fun _ => rfl) (by decide) (by decide)

/-- C1 counterexample: with the post-write verification read failing
(operation 6), `atomicWrite` raises a `Data integrity check failed`
error, yet the primary file already holds the new bytes `7` rather than
the prior bytes `OLD`, contradicting the unchanged-on-failure claim. -/
theorem claim1_counterexample :
    (atomicWrite (exEnv (singleFault 6) false) "db" (.inr 7)
      ⟨[("db", ⟨"OLD", 10⟩), ("db.checksum", ⟨"h3", 11⟩)], 100, 0⟩).1 =
      .error ⟨"Data integrity check failed: EIO: i/o error, read db",
        none⟩ ∧
    FS.lookup (atomicWrite (exEnv (singleFault 6) false) "db" (.inr 7)
      ⟨[("db", ⟨"OLD", 10⟩), ("db.checksum", ⟨"h3", 11⟩)], 100, 0⟩).2.files
        "db" = some ⟨"7", 103⟩ ∧
    "7" ≠ "OLD" := by
  decide


end CanvasStore
